import Mathlib

/-!
Shallow embedding of `rabpro/data_utils.py` (the data-acquisition and
cache-management subsystem of the rabpro repository).

Modelling conventions:
- a filesystem path is a list of components (`FsPath`); `os.path.join`,
  `Path./` and `os.sep` joins become list append;
- the filesystem is an explicit value (`FS`): a list of regular files
  (path and content) and a list of directories;
- file content (`Bytes`) is either bytes that constitute a valid tar
  archive, carrying the archive structure, or raw non-tar bytes; a MERIT
  tar archive is a single top-level directory holding flat file entries,
  which is the shape the extraction code in `download_tar_file` relies on;
- an HTTP interaction (`requests.get`) is an input `Response` (or a map
  from URL to `Response`); a raised network exception is an
  `Except.error`;
- the progress bar (`tqdm`) and authentication/proxy parameters have no
  observable filesystem effect and are carried only as inert arguments;
- `print` calls are collected in a `messages` list;
- a Python exception that propagates out of a function is a `some` value
  in an `exn : Option String` field of the result.
-/

/-- A filesystem path, as a list of components. -/
abbrev FsPath : Type := List String

/-- Render a path for messages (the code interpolates the path into
`print` output). -/
def pathStr (p : FsPath) : String := String.intercalate ("/") p

/-- A MERIT tar archive: one top-level directory `top` holding flat file
entries (name and raw content). -/
structure TarArchive where
  top : String
  entries : List (String × String)
deriving DecidableEq, Repr

/-- File content: either bytes forming a valid tar archive (carrying its
structure) or raw bytes that `tarfile.open` rejects. -/
inductive Bytes where
  | tar (a : TarArchive)
  | raw (s : String)
deriving DecidableEq, Repr

/-- The filesystem: regular files (path and content) and directories. -/
structure FS where
  files : List (FsPath × Bytes)
  dirs : List FsPath
deriving DecidableEq, Repr

/-- `os.path.isfile`. -/
def FS.isfile (fs : FS) (p : FsPath) : Bool := fs.files.any (fun e => e.1 == p)

/-- `os.path.isdir`. -/
def FS.isdir (fs : FS) (p : FsPath) : Bool := fs.dirs.any (fun d => d == p)

/-- `open(p, "wb")` followed by writing `c`: replaces any existing file
at `p`. -/
def FS.writeFile (fs : FS) (p : FsPath) (c : Bytes) : FS :=
  { fs with files := (p, c) :: fs.files.filter (fun e => e.1 != p) }

/-- `os.remove`. -/
def FS.removeFile (fs : FS) (p : FsPath) : FS :=
  { fs with files := fs.files.filter (fun e => e.1 != p) }

/-- Content of the file at `p`, if present. -/
def FS.fileContent (fs : FS) (p : FsPath) : Option Bytes :=
  (fs.files.find? (fun e => e.1 == p)).map (fun e => e.2)

/-- The name of `p` when `p` is directly under directory `d`. -/
def childName (d p : FsPath) : Option String :=
  if (List.dropLast p) == d then List.getLast? p else none

/-- `os.listdir`: names of the entries (files and directories) directly
under `d`; `none` when `d` is not a directory (Python raises
`FileNotFoundError`). -/
def FS.listdir (fs : FS) (d : FsPath) : Option (List String) :=
  if fs.isdir d then
    some ((fs.files.filterMap (fun e => childName d e.1))
      ++ fs.dirs.filterMap (fun q => childName d q))
  else none

/-- `os.makedirs(p, exist_ok=True)`: creates `p` and its ancestors. -/
def FS.makedirs (fs : FS) (p : FsPath) : FS :=
  { fs with
    dirs := ((List.range (List.length p)).map
        (fun i => (List.take (i + 1) p : FsPath))).filter (fun q => !fs.isdir q)
      ++ fs.dirs }

/-- `shutil.move src dst` for the cases arising here: a regular file is
re-created at `dst` with its content, a directory is renamed. -/
def FS.move (fs : FS) (src dst : FsPath) : FS :=
  match fs.files.find? (fun e => e.1 == src) with
  | some e => (fs.removeFile src).writeFile dst e.2
  | none =>
    if fs.isdir src then
      { fs with dirs := dst :: fs.dirs.filter (fun d => d != src) }
    else fs

/-- `tarfile.extractall(dest)` for a MERIT-shaped archive: creates the
top-level directory and writes each flat entry under it. -/
def FS.extractTar (fs : FS) (dest : FsPath) (t : TarArchive) : FS :=
  let topDir : FsPath := dest ++ [t.top]
  let fs1 := if fs.isdir topDir then fs else { fs with dirs := topDir :: fs.dirs }
  t.entries.foldl (fun acc e => acc.writeFile (topDir ++ [e.1]) (Bytes.raw e.2)) fs1

/-- `os.rmdir`: removes `d` only when it is an empty directory, `none`
otherwise (Python raises `OSError`). -/
def FS.rmdirEmpty (fs : FS) (d : FsPath) : Option FS :=
  match fs.listdir d with
  | some [] => some { fs with dirs := fs.dirs.filter (fun q => q != d) }
  | _ => none

/-- An HTTP response: status code, `content-length` header, body bytes. -/
structure Response where
  status : Nat
  contentLength : Nat
  body : Bytes
deriving DecidableEq, Repr

/-- `filename[:-4]`: the archive path with the 4-character `".tar"`
extension stripped from its last component. -/
def tarDirOf (p : FsPath) : FsPath :=
  List.dropLast p ++ [(List.getLastD p "").dropRight 4]

/-- Result of `download_tar_file`: final filesystem, whether
`requests.get` was called, the `print` output, and the exception that
propagates out, if any. -/
structure DlResult where
  fs : FS
  networkCalled : Bool
  messages : List String
  exn : Option String
deriving DecidableEq, Repr

/-- `download_tar_file(url, filename, username, password, proxy, clean)`
from `data_utils.py`, given the filesystem and the response the server
would produce. Mirrors the source line by line: the early return when
`not clean` and the file exists; the GET; the non-200 report-and-return;
the streamed write; `tarfile.open` on the written bytes (raising
`tarfile.ReadError` on non-tar bytes); `extractall` into the parent
directory; `os.listdir(filename[:-4])` (raising when that directory does
not exist); the per-entry `shutil.move` one level up; and, under
`if not clean:` exactly as in the source, `os.rmdir(tar_dir)` and
`os.remove(filename)`. -/
def download_tar_file (url : String) (filename : FsPath)
    (username password : String) (proxy : Option String) (clean : Bool)
    (fs : FS) (resp : Response) : DlResult :=
  if !clean && fs.isfile filename then
    { fs := fs, networkCalled := false, messages := [], exn := none }
  else
    let msg0 := "Downloading " ++ url ++ " into " ++ pathStr filename
    if resp.status != 200 then
      { fs := fs, networkCalled := true,
        messages := [msg0, url ++ " failed with status code " ++ toString resp.status],
        exn := none }
    else
      let fs1 := fs.writeFile filename resp.body
      match resp.body with
      | Bytes.raw _ =>
        { fs := fs1, networkCalled := true, messages := [msg0],
          exn := some "tarfile.ReadError" }
      | Bytes.tar t =>
        let fs2 := fs1.extractTar (List.dropLast filename) t
        let tar_dir := tarDirOf filename
        match fs2.listdir tar_dir with
        | none =>
          { fs := fs2, networkCalled := true, messages := [msg0],
            exn := some "FileNotFoundError" }
        | some names =>
          let fs3 := names.foldl
            (fun acc f => acc.move (tar_dir ++ [f]) (List.dropLast tar_dir ++ [f])) fs2
          if !clean then
            match fs3.rmdirEmpty tar_dir with
            | none =>
              { fs := fs3, networkCalled := true, messages := [msg0],
                exn := some "OSError" }
            | some fs4 =>
              { fs := fs4.removeFile filename, networkCalled := true,
                messages := [msg0], exn := none }
          else
            { fs := fs3, networkCalled := true, messages := [msg0], exn := none }

/-- `_HYDROBASINS_IDS` from `data_utils.py`: the five shapefile-component
extensions and their shared-drive resource ids, in dict insertion order. -/
def HYDROBASINS_IDS : List (String × String) :=
  [("dbf", "1duRlrrHTciKn7gM4qogumZ4OhqrB0Ggq"),
   ("prj", "1fSAUKiFbfYb8-rLqiG1Epo3dMNLBOMHh"),
   ("qpj", "1ZMCrzYUJuxORxNwkQjL1qvFHODS64WBu"),
   ("shp", "1ev5Md5d2RwzpTRfpJ6SmCkYPf_7821b2"),
   ("shx", "15-fa27DPnioY9kDzgKHQdaSxingSGhCJ")]

/-- Destination path `pathbase / (filebase + ext)` used by `hydrobasins`
for extension `ext`, under data root `dataRoot`. -/
def hbFile (dataRoot : FsPath) (ext : String) : FsPath :=
  dataRoot ++ ["HydroBasins", "level_one", "hybas_all_lev01_v1c." ++ ext]

/-- Download URL `urlbase + _HYDROBASINS_IDS[ext]` used by `hydrobasins`. -/
def hbUrl (gid : String) : String :=
  "https://drive.google.com/uc?export=download&id=" ++ gid

/-- Result of `hydrobasins`: final filesystem, the extensions for which a
GET was issued (in order), whether the function returned early because a
destination file already existed under `clean=False`, and the `print`
output. -/
structure HbResult where
  fs : FS
  fetched : List String
  earlyExisting : Bool
  messages : List String
deriving Repr

/-- The `for ext in _HYDROBASINS_IDS` loop of `hydrobasins`: per
extension, the `clean=False` existing-file check that returns from the
whole function, the GET, the non-200 report-and-return, and the streamed
write of the body. -/
def hbLoop (clean : Bool) (dataRoot : FsPath) (resp : String → Response) :
    List (String × String) → FS → List String → List String → HbResult
  | [], fs, fetched, msgs =>
    { fs := fs, fetched := fetched.reverse, earlyExisting := false,
      messages := msgs.reverse }
  | (ext, gid) :: rest, fs, fetched, msgs =>
    let filename := hbFile dataRoot ext
    if !clean && fs.isfile filename then
      { fs := fs, fetched := fetched.reverse, earlyExisting := true,
        messages := msgs.reverse }
    else
      let url := hbUrl gid
      let r := resp url
      let msg0 := "Downloading " ++ url ++ " into " ++ pathStr filename
      if r.status != 200 then
        { fs := fs, fetched := (ext :: fetched).reverse, earlyExisting := false,
          messages := ((url ++ " failed with status code " ++ toString r.status)
            :: msg0 :: msgs).reverse }
      else
        hbLoop clean dataRoot resp rest (fs.writeFile filename r.body)
          (ext :: fetched) (msg0 :: msgs)

/-- `hydrobasins(proxy, clean)` from `data_utils.py`, given the data root
(the process-wide `_DATAPATH`), the filesystem, and the response each URL
would produce: creates the level-1 directory, then runs the download loop
over the five extensions. -/
def hydrobasins (proxy : Option String) (clean : Bool) (dataRoot : FsPath)
    (fs : FS) (resp : String → Response) : HbResult :=
  hbLoop clean dataRoot resp HYDROBASINS_IDS
    (fs.makedirs (dataRoot ++ ["HydroBasins", "level_one"])) [] []

/-- Does the character list `pat` occur at the head of `hay`? -/
def charsMatch : List Char → List Char → Bool
  | [], _ => true
  | _ :: _, [] => false
  | a :: as, b :: bs => a == b && charsMatch as bs

/-- Does `pat` occur contiguously anywhere in `hay`? -/
def containsSeq : List Char → List Char → Bool
  | [], pat => pat.isEmpty
  | h :: t, pat => charsMatch pat (h :: t) || containsSeq t pat

/-- `re.search(target, text)` for the plain-substring patterns used here:
does `target` occur in `s`? -/
def strContains (s target : String) : Bool := containsSeq s.toList target.toList

/-- An anchor element of the scraped HTML listing: its visible text and
its `href` attribute (`soup.findAll("a", text=re.compile(target),
href=True)` yields only anchors that carry an `href`). -/
structure Anchor where
  text : String
  href : String
deriving DecidableEq, Repr

/-- `merit_hydro_paths` from `data_utils.py`: 3-character filename prefix
to destination subdirectory. -/
def merit_hydro_paths : List (String × FsPath) :=
  [("elv", ["DEM", "MERIT_ELEV_HP"]),
   ("dir", ["DEM", "MERIT_FDR"]),
   ("upa", ["DEM", "MERIT_UDA"]),
   ("wth", ["DEM", "MERIT_WTH"])]

/-- Lookup in `merit_hydro_paths`. -/
def meritLookup (k : String) : Option FsPath :=
  (merit_hydro_paths.find? (fun kv => kv.1 == k)).map (fun kv => kv.2)

/-- The MERIT Hydro listing base URL. -/
def mhBaseurl : String := "http://hydro.iis.u-tokyo.ac.jp/~yamadai/MERIT_Hydro/"

/-- `urls = [x["href"][2:] for x in soup.findAll(..)]` from `merit_hydro`:
the hrefs of the anchors whose text matches `target`, each with its FIRST
TWO CHARACTERS dropped (the source comment says this gets rid of the
leading "./"). -/
def mhUrls (target : String) (anchors : List Anchor) : List String :=
  (anchors.filter (fun a => strContains a.text target)).map (fun a => a.href.drop 2)

/-- The characters after the last `/` of a character list (accumulator
holds the current segment, reversed). -/
def lastSegment : List Char → List Char → List Char
  | [], acc => acc.reverse
  | c :: cs, acc => if c == '/' then lastSegment cs [] else lastSegment cs (c :: acc)

/-- `os.path.basename(urllib.parse.urlparse(url).path)`: the characters
after the last `/` (the MERIT URLs carry no query or fragment). -/
def urlBasename (u : String) : String := ⟨lastSegment u.data []⟩

/-- Result of `merit_hydro`: final filesystem, the exception propagating
out (if any), and the url files for which `download_tar_file` was
invoked, in order. -/
structure MhResult where
  fs : FS
  exn : Option String
  attempted : List String
deriving Repr

/-- The `for urlfile in urls` loop of `merit_hydro`: classify the bare
filename by its first three characters against `merit_hydro_paths`
(`continue` on an unrecognized prefix), create the destination directory,
and run `download_tar_file`; an exception from the download stops the
loop and propagates. -/
def mhLoop (username password : String) (proxy : Option String) (clean : Bool)
    (dataRoot : FsPath) (resp : String → Response) :
    List String → FS → List String → MhResult
  | [], fs, att => { fs := fs, exn := none, attempted := att.reverse }
  | urlfile :: rest, fs, att =>
    let url := mhBaseurl ++ urlfile
    let fname := urlBasename url
    match meritLookup (fname.take 3) with
    | none => mhLoop username password proxy clean dataRoot resp rest fs att
    | some sub =>
      let dest := dataRoot ++ sub ++ [fname]
      let fs1 := fs.makedirs (List.dropLast dest)
      let r := download_tar_file url dest username password proxy clean fs1 (resp url)
      match r.exn with
      | some e => { fs := r.fs, exn := some e, attempted := (urlfile :: att).reverse }
      | none => mhLoop username password proxy clean dataRoot resp rest r.fs (urlfile :: att)

/-- `merit_hydro(target, username, password, proxy, clean)` from
`data_utils.py`, given the anchors of the fetched listing page, the data
root, the filesystem, and the response each tile URL would produce:
builds `urls` by matching and stripping, raises `ValueError` when no
anchor matches, and otherwise runs the download loop. -/
def merit_hydro (target : String) (anchors : List Anchor)
    (username password : String) (proxy : Option String) (clean : Bool)
    (dataRoot : FsPath) (fs : FS) (resp : String → Response) : MhResult :=
  let urls := mhUrls target anchors
  if urls.isEmpty then
    { fs := fs, exn := some ("ValueError: No tile matching " ++ target ++ " found."),
      attempted := [] }
  else mhLoop username password proxy clean dataRoot resp urls fs []

/-- A primitive JSON value, as found in the catalog records. -/
inductive JPrim where
  | jnull
  | jbool (b : Bool)
  | jnum (n : Int)
  | jstr (s : String)
deriving DecidableEq, Repr

/-- A parsed JSON document (the catalog is a JSON object; nesting beyond
one level is not needed by any claim). -/
structure JsonDoc where
  kvs : List (String × JPrim)
deriving DecidableEq, Repr

/-- Serialize a primitive JSON value. -/
def dumpPrim : JPrim → String
  | JPrim.jnull => "null"
  | JPrim.jbool true => "true"
  | JPrim.jbool false => "false"
  | JPrim.jnum n => toString n
  | JPrim.jstr s => "\"" ++ s ++ "\""

/-- `json.dump(r, f, indent=4)`: the pretty-printed serialization of the
parsed document, four-space indented, one key per line. -/
def dumpJson (j : JsonDoc) : String :=
  match j.kvs with
  | [] => "\x7b\x7d"
  | kvs =>
    "\x7b\n"
      ++ String.intercalate (",\n")
        (kvs.map (fun kv => "    \"" ++ kv.1 ++ "\": " ++ dumpPrim kv.2))
      ++ "\n\x7d"

/-- The response to the catalog GET: status code and the outcome of
`response.json()` (`Except.error` when parsing raises). -/
structure GeeResponse where
  status : Nat
  jsonBody : Except String JsonDoc
deriving Repr

/-- `CATALOG_URL` from `data_utils.py`. -/
def CATALOG_URL : String :=
  "https://raw.githubusercontent.com/jonschwenk/rabpro/main/Data/gee_datasets.json"

/-- `_GEE_CACHE_DAYS` from `data_utils.py`. -/
def GEE_CACHE_DAYS : Nat := 1

/-- The staleness test of `download_gee_metadata`:
`not gee_metadata_path.is_file() or delta > timedelta(days=cacheDays)`,
with times in integer seconds, the cache file given as its content and
modification time. -/
def geeStale (cache : Option (String × Int)) (now : Int) (cacheDays : Nat) : Bool :=
  match cache with
  | none => true
  | some c => decide (now - c.2 > (cacheDays : Int) * 86400)

/-- Result of `download_gee_metadata`: the cache file after the call
(content and modification time), whether `requests.get` was called, and
the `print` output. The Python function wraps the fetch, the parse and
the write in `try ... except Exception as e: print(e)`, so no exception
propagates; accordingly this model is a total function with no exception
outcome. -/
structure GeeResult where
  cache : Option (String × Int)
  fetched : Bool
  messages : List String
deriving Repr

/-- `download_gee_metadata()` from `data_utils.py`, given the TTL
constant, the current time, the cache file state, the data root (the
process-wide `_DATAPATH`), and the outcome the network would produce
(`Except.error` for a raised network exception). On staleness it GETs
`CATALOG_URL`; on HTTP 200 it parses the body and overwrites the cache
file with the `indent=4` serialization; on non-200 it reports and leaves
the cache unchanged; any raised exception is caught and printed. -/
def download_gee_metadata (cacheDays : Nat) (now : Int)
    (cache : Option (String × Int)) (dataRoot : FsPath)
    (net : Except String GeeResponse) : GeeResult :=
  if geeStale cache now cacheDays then
    match net with
    | Except.error e => { cache := cache, fetched := true, messages := [e] }
    | Except.ok response =>
      if response.status == 200 then
        match response.jsonBody with
        | Except.error e => { cache := cache, fetched := true, messages := [e] }
        | Except.ok r => { cache := some (dumpJson r, now), fetched := true, messages := [] }
      else
        { cache := cache, fetched := true,
          messages := [CATALOG_URL ++ " returned error status code "
            ++ toString response.status ++ ". Download manually into "
            ++ pathStr (dataRoot ++ ["gee_datasets.json"])] }
  else { cache := cache, fetched := false, messages := [] }

/-- The environment variables read by `create_datapaths`: `RABPRO_DATA`
and `RABPRO_CONFIG` (absent values raise `KeyError`, caught by the bare
`except`). -/
structure EnvVars where
  rabproData : Option FsPath
  rabproConfig : Option FsPath

/-- A filesystem operation performed by `create_datapaths`, for the frame
property: the only operation it performs is an existence test. -/
inductive FsOp where
  | isFileCheck (p : FsPath)
  | mkdirOp (p : FsPath)
  | writeOp (p : FsPath)
  | removeOp (p : FsPath)
deriving DecidableEq, Repr

/-- Is the operation read-only (modifies nothing on disk)? -/
def readOnlyOp : FsOp → Bool
  | FsOp.isFileCheck _ => true
  | _ => false

/-- `_PATH_CONSTANTS` from `data_utils.py`: logical key to fixed relative
subpath. -/
def PATH_CONSTANTS : List (String × FsPath) :=
  [("HydroBasins1", ["HydroBasins", "level_one"]),
   ("HydroBasins12", ["HydroBasins", "level_twelve"]),
   ("DEM_fdr", ["DEM", "MERIT_FDR", "MERIT_FDR.vrt"]),
   ("DEM_uda", ["DEM", "MERIT_UDA", "MERIT_UDA.vrt"]),
   ("DEM_elev_hp", ["DEM", "MERIT_ELEV_HP", "MERIT_ELEV_HP.vrt"]),
   ("DEM_width", ["DEM", "MERIT_WTH", "MERIT_WTH.vrt"])]

/-- Result of `create_datapaths`: the returned mapping (a `none` value is
Python `None` for `user_gee_metadata`), the process-wide `_DATAPATH`
global after the call, and the trace of filesystem operations performed. -/
structure DatapathsResult where
  table : List (String × Option FsPath)
  newDataRoot : FsPath
  ops : List FsOp
deriving Repr

/-- The data root the spec describes: explicit override, else the
`RABPRO_DATA` environment variable, else the platform default user-data
directory. Written from the spec wording for comparison against
`create_datapaths`. -/
def specResolvedDataRoot (datapath : Option FsPath) (env : EnvVars)
    (platformData : FsPath) : FsPath :=
  datapath.getD (env.rabproData.getD platformData)

/-- `create_datapaths(datapath, configpath)` from `data_utils.py`, given
the environment variables, the platform default user-data and user-config
directories (`appdirs.user_data_dir` / `appdirs.user_config_dir`), and
the existence test for the user catalog file. Resolves the data and
config roots, sets the `_DATAPATH` global, builds the table from
`_PATH_CONSTANTS` plus `gee_metadata`, and sets `user_gee_metadata` to
the joined config path only if a file exists there. Its only filesystem
operation is that `is_file()` test. -/
def create_datapaths (datapath configpath : Option FsPath) (env : EnvVars)
    (platformData platformConfig : FsPath)
    (userFileExists : FsPath → Bool) : DatapathsResult :=
  let dp := match datapath with
    | some p => p
    | none =>
      match env.rabproData with
      | some p => p
      | none => platformData
  let cp := match configpath with
    | some p => p
    | none =>
      match env.rabproConfig with
      | some p => p
      | none => platformConfig
  let base := PATH_CONSTANTS.map (fun kv => (kv.1, some (dp ++ kv.2)))
  let geePath := dp ++ ["gee_datasets.json"]
  let userPath := cp ++ ["user_gee_datasets.json"]
  let userEntry := if userFileExists userPath then some userPath else none
  { table := base ++ [("gee_metadata", some geePath), ("user_gee_metadata", userEntry)],
    newDataRoot := dp,
    ops := [FsOp.isFileCheck userPath] }

lemma strAppendCancel (pre x y : String) (h : pre ++ x = pre ++ y) : x = y := by
  have hd : pre.data ++ x.data = pre.data ++ y.data := congrArg String.data h
  have h2 := List.append_cancel_left hd
  cases x
  cases y
  exact congrArg String.mk h2

lemma listAnyCongr {α : Type} (l : List α) (f g : α → Bool)
    (h : ∀ x ∈ l, f x = g x) : l.any f = l.any g := by
  induction l with
  | nil => rfl
  | cons a t ih =>
    simp only [List.any_cons]
    rw [h a (List.mem_cons_self a t), ih (fun x hx => h x (List.mem_cons_of_mem a hx))]

lemma listTakeWhileCongr {α : Type} (l : List α) (f g : α → Bool)
    (h : ∀ x ∈ l, f x = g x) : l.takeWhile f = l.takeWhile g := by
  induction l with
  | nil => rfl
  | cons a t ih =>
    rw [List.takeWhile_cons, List.takeWhile_cons, h a (List.mem_cons_self a t),
      ih (fun x hx => h x (List.mem_cons_of_mem a hx))]

lemma anyFilterKeep (l : List (FsPath × Bytes)) (p q : FsPath) (h : p ≠ q) :
    ((l.filter (fun e => e.1 != p)).any (fun e => e.1 == q))
      = l.any (fun e => e.1 == q) := by
  induction l with
  | nil => rfl
  | cons e t ih =>
    by_cases he : e.1 = p
    · have hq : (e.1 == q) = false := by
        rw [he]
        exact beq_eq_false_iff_ne.mpr h
      have hbp : (e.1 != p) = false := by
        rw [he]
        simp
      rw [List.filter_cons, hbp]
      simp only [Bool.false_eq_true, if_false, List.any_cons, hq, Bool.false_or]
      exact ih
    · have hbp : (e.1 != p) = true := by
        simp [bne_iff_ne, he]
      rw [List.filter_cons, hbp]
      simp only [if_true, List.any_cons, ih]

lemma FS.isfile_writeFile_ne (fs : FS) (p q : FsPath) (c : Bytes) (h : p ≠ q) :
    (fs.writeFile p c).isfile q = fs.isfile q := by
  unfold FS.writeFile FS.isfile
  simp only [List.any_cons]
  rw [anyFilterKeep fs.files p q h]
  simp [beq_eq_false_iff_ne.mpr h]

lemma FS.isfile_writeFile_self (fs : FS) (p : FsPath) (c : Bytes) :
    (fs.writeFile p c).isfile p = true := by
  simp [FS.writeFile, FS.isfile]

lemma FS.fileContent_writeFile (fs : FS) (p : FsPath) (c : Bytes) :
    (fs.writeFile p c).fileContent p = some c := by
  simp [FS.writeFile, FS.fileContent, List.find?]

lemma FS.isfile_makedirs (fs : FS) (p q : FsPath) :
    (fs.makedirs p).isfile q = fs.isfile q := rfl

/-- The filesystem for the C1 evaluation: an existing parent directory
`data`, no files. -/
def c1fs : FS := { files := [], dirs := [["data"]] }

/-- The response for the C1 evaluation: HTTP 200 delivering a valid tar
archive `foo.tar` whose top-level directory `foo` contains files `a` and
`b`. -/
def c1resp : Response :=
  { status := 200, contentLength := 2,
    body := Bytes.tar { top := "foo", entries := [("a", "A"), ("b", "B")] } }

/-- C1: the claim states that after a successful `download_tar_file`
(HTTP 200, valid tar) every entry directly under the extracted
subdirectory is moved up one level, and the now-empty subdirectory and
the archive are removed if and only if cleanup is requested (removed when
`clean=True`, left in place when `clean=False`). The code inverts the
removal guard (`if not clean:` at the end of `download_tar_file`): this
theorem evaluates the model at the archive `data/foo.tar` containing
`{a, b}` and shows that flattening occurs in both cases, but with
`clean=True` the subdirectory `data/foo` and the archive `data/foo.tar`
BOTH REMAIN, while with `clean=False` both are removed — the opposite of
the claimed cleanup polarity. -/
theorem c1_cleanup_polarity_inverted :
    (let r := download_tar_file "u" ["data", "foo.tar"] "usr" "pw" none true c1fs c1resp
     r.exn = none
       ∧ r.fs.isfile ["data", "a"] = true ∧ r.fs.isfile ["data", "b"] = true
       ∧ r.fs.isfile ["data", "foo", "a"] = false
       ∧ r.fs.isfile ["data", "foo.tar"] = true
       ∧ r.fs.isdir ["data", "foo"] = true)
    ∧ (let r := download_tar_file "u" ["data", "foo.tar"] "usr" "pw" none false c1fs c1resp
       r.exn = none
         ∧ r.fs.isfile ["data", "a"] = true ∧ r.fs.isfile ["data", "b"] = true
         ∧ r.fs.isfile ["data", "foo.tar"] = false
         ∧ r.fs.isdir ["data", "foo"] = false) := by
  decide

/-- The HTML fixture of the spec's MeritHydroFetcher test: three anchors
whose hrefs do NOT begin with the relative-path marker "./". -/
def c3anchors : List Anchor :=
  [{ text := "elv_tile.tar", href := "elv_tile.tar" },
   { text := "dir_tile.tar", href := "dir_tile.tar" },
   { text := "xyz_tile.tar", href := "xyz_tile.tar" }]

/-- A trivially successful response for the C3 evaluation. -/
def c3resp : String → Response :=
  fun _ => { status := 200, contentLength := 0,
             body := Bytes.tar { top := "x", entries := [] } }

/-- C3 counterexample: the claim states that an href that does not begin
with "./" still yields its own bare filename. The code slices the first
two characters unconditionally (`x["href"][2:]`): on the spec's own
fixture `["elv_tile.tar", "dir_tile.tar", "xyz_tile.tar"]` (all matched
by the pattern "tile") the computed filenames are
`["v_tile.tar", "r_tile.tar", "z_tile.tar"]` — not the bare filenames —
and consequently zero downloads are attempted instead of the two the
spec expects. -/
theorem c3_unconditional_slice_counterexample :
    mhUrls "tile" c3anchors = ["v_tile.tar", "r_tile.tar", "z_tile.tar"]
    ∧ "v_tile.tar" ≠ "elv_tile.tar"
    ∧ (merit_hydro "tile" c3anchors "usr" "pw" none true []
        { files := [], dirs := [] } c3resp).attempted = [] := by
  decide

/-- C3 (amended): for every anchor matched by the tile pattern, the
filename used for classification and download is obtained by
unconditionally dropping the FIRST TWO characters of the anchor's href;
when the href begins with the relative-path marker "./" this yields the
bare filename. -/
theorem c3_amended_drop_two (target : String) (anchors : List Anchor) (a : Anchor)
    (ha : a ∈ anchors) (hm : strContains a.text target = true) :
    (a.href.drop 2) ∈ mhUrls target anchors
    ∧ ∀ rest : String, a.href = "./" ++ rest → a.href.drop 2 = rest := by
  constructor
  · exact List.mem_map_of_mem _ (List.mem_filter.mpr ⟨ha, hm⟩)
  · intro rest hr
    rw [hr]
    have h2 : ("./" ++ rest).drop 2 = ⟨("./" ++ rest).data.drop 2⟩ := String.drop_eq _ _
    have h1 : ("./" ++ rest).data = '.' :: '/' :: rest.data := rfl
    rw [h2, h1]
    rfl

/-- Witness for C3 (amended) at a concrete matched anchor with an
href that begins with "./". -/
theorem c3_amended_drop_two_witness :
    ("./elv_x.tar".drop 2) ∈ mhUrls "elv" [{ text := "elv_x.tar", href := "./elv_x.tar" }]
    ∧ "./elv_x.tar".drop 2 = "elv_x.tar" :=
  ⟨(c3_amended_drop_two "elv" [{ text := "elv_x.tar", href := "./elv_x.tar" }]
      { text := "elv_x.tar", href := "./elv_x.tar" } (by decide) (by decide)).1,
   (c3_amended_drop_two "elv" [{ text := "elv_x.tar", href := "./elv_x.tar" }]
      { text := "elv_x.tar", href := "./elv_x.tar" } (by decide) (by decide)).2
     "elv_x.tar" (by decide)⟩

/-- C7: when `clean=False` (skip-if-exists in effect) and the destination
path already exists as a file, `download_tar_file` returns immediately:
no network call, no message, no exception, and the filesystem — in
particular the destination file — is unchanged. -/
theorem c7_skip_when_exists (url : String) (filename : FsPath)
    (username password : String) (proxy : Option String) (fs : FS)
    (resp : Response) (hex : fs.isfile filename = true) :
    download_tar_file url filename username password proxy false fs resp
      = { fs := fs, networkCalled := false, messages := [], exn := none } := by
  simp [download_tar_file, hex]

/-- A filesystem already holding the destination file, for the C7
witness. -/
def c7fs : FS := { files := [(["d", "x.tar"], Bytes.raw "z")], dirs := [["d"]] }

/-- Witness for C7 at a concrete existing destination. -/
theorem c7_skip_when_exists_witness :
    download_tar_file "u" ["d", "x.tar"] "usr" "pw" none false c7fs
        { status := 200, contentLength := 0, body := Bytes.raw "y" }
      = { fs := c7fs, networkCalled := false, messages := [], exn := none } :=
  c7_skip_when_exists "u" ["d", "x.tar"] "usr" "pw" none c7fs
    { status := 200, contentLength := 0, body := Bytes.raw "y" } (by decide)

/-- C5: in `download_tar_file`, when the skip branch does not fire and the
HTTP response status is not 200, the failure is reported in a message
carrying the URL and the status code, the function returns without
raising (`exn = none`), and the filesystem — in particular the
destination file — is neither created nor modified. -/
theorem c5_non200_reports_and_returns (url : String) (filename : FsPath)
    (username password : String) (proxy : Option String) (clean : Bool)
    (fs : FS) (resp : Response)
    (hskip : clean = true ∨ fs.isfile filename = false)
    (hst : resp.status ≠ 200) :
    download_tar_file url filename username password proxy clean fs resp
      = { fs := fs, networkCalled := true,
          messages := ["Downloading " ++ url ++ " into " ++ pathStr filename,
            url ++ " failed with status code " ++ toString resp.status],
          exn := none } := by
  have hcond : (!clean && fs.isfile filename) = false := by
    rcases hskip with h | h <;> simp [h]
  have hne : (resp.status != 200) = true := by
    simp [bne_iff_ne, hst]
  simp [download_tar_file, hcond, hne]

/-- Witness for C5 at a concrete 404 response. -/
theorem c5_non200_reports_and_returns_witness :
    download_tar_file "u" ["d", "x.tar"] "usr" "pw" none true
        { files := [], dirs := [] } { status := 404, contentLength := 0, body := Bytes.raw "" }
      = { fs := { files := [], dirs := [] }, networkCalled := true,
          messages := ["Downloading " ++ "u" ++ " into " ++ pathStr ["d", "x.tar"],
            "u" ++ " failed with status code " ++ toString (404 : Nat)],
          exn := none } :=
  c5_non200_reports_and_returns "u" ["d", "x.tar"] "usr" "pw" none true
    { files := [], dirs := [] } { status := 404, contentLength := 0, body := Bytes.raw "" }
    (Or.inl rfl) (by decide)

/-- The single matched anchor of the C9 propagation scenario. -/
def c9anchor : Anchor := { text := "elv_n30w120.tar", href := "./elv_n30w120.tar" }

/-- The destination path of the C9 propagation scenario. -/
def c9dest : FsPath := ["root", "DEM", "MERIT_ELEV_HP", "elv_n30w120.tar"]

/-- C9: if `download_tar_file` receives an HTTP 200 response whose bytes
are not a valid tar archive, the extraction step raises
(`tarfile.ReadError`) and the exception propagates out of
`download_tar_file` — and, for a matched and recognized tile, out of
`merit_hydro`, which has no handler — while the invalid downloaded file
is left on disk with exactly the downloaded bytes. -/
theorem c9_invalid_tar_propagates (url : String) (filename : FsPath)
    (username password : String) (proxy : Option String) (clean : Bool)
    (fs : FS) (s : String) (resp : Response)
    (hskip : clean = true ∨ fs.isfile filename = false)
    (hst : resp.status = 200) (hbody : resp.body = Bytes.raw s) :
    ((download_tar_file url filename username password proxy clean fs resp).exn
        = some "tarfile.ReadError"
      ∧ (download_tar_file url filename username password proxy clean fs resp).fs.fileContent
          filename = some (Bytes.raw s))
    ∧ ∀ (fs2 : FS),
        (merit_hydro "n30w120" [c9anchor] username password proxy true
            ["root"] fs2 (fun _ => Response.mk 200 0 (Bytes.raw s))).exn
            = some "tarfile.ReadError"
        ∧ (merit_hydro "n30w120" [c9anchor] username password proxy true
            ["root"] fs2 (fun _ => Response.mk 200 0 (Bytes.raw s))).fs.fileContent
            c9dest = some (Bytes.raw s) := by
  have hcond : (!clean && fs.isfile filename) = false := by
    rcases hskip with h | h <;> simp [h]
  have hne : (resp.status != 200) = false := by
    simp [hst]
  constructor
  · rw [download_tar_file]
    rw [hcond, hne]
    simp only [Bool.false_eq_true, if_false, hbody]
    exact ⟨trivial, FS.fileContent_writeFile _ filename (Bytes.raw s)⟩
  · intro fs2
    constructor
    · rfl
    · show ((fs2.makedirs (List.dropLast c9dest)).writeFile c9dest
          (Bytes.raw s)).fileContent c9dest = some (Bytes.raw s)
      exact FS.fileContent_writeFile _ _ (Bytes.raw s)

/-- Witness for C9: a concrete 200 response with non-tar bytes makes the
exception propagate out of `download_tar_file`. -/
theorem c9_invalid_tar_propagates_witness :
    (download_tar_file "u" ["d", "x.tar"] "usr" "pw" none true
        { files := [], dirs := [] }
        { status := 200, contentLength := 0, body := Bytes.raw "junk" }).exn
      = some "tarfile.ReadError" :=
  ((c9_invalid_tar_propagates "u" ["d", "x.tar"] "usr" "pw" none true
      { files := [], dirs := [] } "junk"
      { status := 200, contentLength := 0, body := Bytes.raw "junk" }
      (Or.inl rfl) rfl rfl).1).1

lemma hbFile_inj (dataRoot : FsPath) {x y : String}
    (h : hbFile dataRoot x = hbFile dataRoot y) : x = y := by
  unfold hbFile at h
  have h2 := List.append_cancel_left h
  have h3 : "hybas_all_lev01_v1c." ++ x = "hybas_all_lev01_v1c." ++ y := by
    simpa using h2
  exact strAppendCancel _ _ _ h3

/-- Characterization of the `hydrobasins` loop under `clean=False` and
all-200 responses: it returns early exactly when some destination file
already exists, and the extensions fetched are exactly the prefix of the
list before the first already-existing file. -/
lemma hbLoop_characterization (dataRoot : FsPath) (resp : String → Response) :
    ∀ (l : List (String × String)) (fs : FS) (acc msgs : List String),
      (∀ kv ∈ l, (resp (hbUrl kv.2)).status = 200) →
      l.Pairwise (fun a b => hbFile dataRoot a.1 ≠ hbFile dataRoot b.1) →
      (hbLoop false dataRoot resp l fs acc msgs).earlyExisting
          = l.any (fun kv => fs.isfile (hbFile dataRoot kv.1))
        ∧ (hbLoop false dataRoot resp l fs acc msgs).fetched
          = acc.reverse
            ++ (l.map Prod.fst).takeWhile (fun e => !fs.isfile (hbFile dataRoot e)) := by
  intro l
  induction l with
  | nil =>
    intro fs acc msgs _ _
    constructor
    · rfl
    · simp [hbLoop]
  | cons kv rest ih =>
    intro fs acc msgs h200 hpw
    obtain ⟨ext, gid⟩ := kv
    rw [List.pairwise_cons] at hpw
    by_cases hf : fs.isfile (hbFile dataRoot ext) = true
    · constructor
      · rw [hbLoop]
        simp [hf]
      · rw [hbLoop]
        simp [hf]
    · have hf2 : fs.isfile (hbFile dataRoot ext) = false := by
        simpa using hf
      have hst : ((resp (hbUrl gid)).status != 200) = false := by
        have := h200 (ext, gid) (List.mem_cons_self _ _)
        simp [this]
      have hstep : hbLoop false dataRoot resp ((ext, gid) :: rest) fs acc msgs
          = hbLoop false dataRoot resp rest
              (fs.writeFile (hbFile dataRoot ext) (resp (hbUrl gid)).body)
              (ext :: acc)
              (("Downloading " ++ hbUrl gid ++ " into " ++ pathStr (hbFile dataRoot ext))
                :: msgs) := by
        rw [hbLoop]
        simp [hf2, hst]
      have hih := ih (fs.writeFile (hbFile dataRoot ext) (resp (hbUrl gid)).body)
        (ext :: acc)
        (("Downloading " ++ hbUrl gid ++ " into " ++ pathStr (hbFile dataRoot ext)) :: msgs)
        (fun kv2 hkv2 => h200 kv2 (List.mem_cons_of_mem _ hkv2)) hpw.2
      have hsame : ∀ kv2 ∈ rest,
          (fs.writeFile (hbFile dataRoot ext) (resp (hbUrl gid)).body).isfile
              (hbFile dataRoot kv2.1)
            = fs.isfile (hbFile dataRoot kv2.1) :=
        fun kv2 hkv2 =>
          FS.isfile_writeFile_ne fs _ _ _ (hpw.1 kv2 hkv2)
      constructor
      · rw [hstep, hih.1]
        have hany : rest.any (fun kv2 =>
            (fs.writeFile (hbFile dataRoot ext) (resp (hbUrl gid)).body).isfile
              (hbFile dataRoot kv2.1))
            = rest.any (fun kv2 => fs.isfile (hbFile dataRoot kv2.1)) :=
          listAnyCongr rest _ _ hsame
        rw [hany]
        simp [hf2]
      · rw [hstep, hih.2]
        have htw : (rest.map Prod.fst).takeWhile (fun e =>
            !(fs.writeFile (hbFile dataRoot ext) (resp (hbUrl gid)).body).isfile
              (hbFile dataRoot e))
            = (rest.map Prod.fst).takeWhile (fun e => !fs.isfile (hbFile dataRoot e)) := by
          refine listTakeWhileCongr _ _ _ ?_
          intro e he
          obtain ⟨kv2, hkv2, rfl⟩ := List.mem_map.mp he
          rw [hsame kv2 hkv2]
        rw [htw]
        simp [List.takeWhile_cons, hf2]

/-- C2: in `hydrobasins`, when `clean=False` and any one of the five
destination files already exists, the whole operation returns early: the
extensions fetched are exactly those strictly before the first
already-existing file in dict order, so a single present file
short-circuits fetching all remaining files in that invocation — not
just the one that exists. -/
theorem c2_existing_file_short_circuits (proxy : Option String)
    (dataRoot : FsPath) (fs : FS) (resp : String → Response)
    (h200 : ∀ kv ∈ HYDROBASINS_IDS, (resp (hbUrl kv.2)).status = 200)
    (hex : HYDROBASINS_IDS.any (fun kv => fs.isfile (hbFile dataRoot kv.1)) = true) :
    (hydrobasins proxy false dataRoot fs resp).earlyExisting = true
    ∧ (hydrobasins proxy false dataRoot fs resp).fetched
        = (HYDROBASINS_IDS.map Prod.fst).takeWhile
            (fun e => !fs.isfile (hbFile dataRoot e)) := by
  have hp0 : HYDROBASINS_IDS.Pairwise (fun a b => a.1 ≠ b.1) := by decide
  have hpw : HYDROBASINS_IDS.Pairwise
      (fun a b => hbFile dataRoot a.1 ≠ hbFile dataRoot b.1) :=
    hp0.imp (fun h hc => h (hbFile_inj dataRoot hc))
  have hmain := hbLoop_characterization dataRoot resp HYDROBASINS_IDS
    (fs.makedirs (dataRoot ++ ["HydroBasins", "level_one"])) [] [] h200 hpw
  exact ⟨hmain.1.trans hex, hmain.2.trans (by simp [FS.isfile_makedirs])⟩

/-- A filesystem in which the third-to-fifth-fetched files are absent but
the second (`.prj`) is already present, for the C2 witness. -/
def c2fs : FS :=
  { files := [(["HydroBasins", "level_one", "hybas_all_lev01_v1c.prj"], Bytes.raw "p")],
    dirs := [] }

/-- An all-200 response map for the C2 witness. -/
def c2resp : String → Response :=
  fun _ => { status := 200, contentLength := 0, body := Bytes.raw "" }

/-- Witness for C2: with only `.prj` already present, `hydrobasins`
returns early having fetched only `dbf` — `qpj`, `shp` and `shx` are
never fetched although absent. -/
theorem c2_existing_file_short_circuits_witness :
    (hydrobasins none false [] c2fs c2resp).earlyExisting = true
    ∧ (hydrobasins none false [] c2fs c2resp).fetched = ["dbf"] := by
  have h := c2_existing_file_short_circuits none [] c2fs c2resp
    (fun kv _ => rfl) (by decide)
  exact ⟨h.1, h.2.trans (by decide)⟩

lemma gee_fetched (cacheDays : Nat) (now : Int) (cache : Option (String × Int))
    (dataRoot : FsPath) (net : Except String GeeResponse) :
    (download_gee_metadata cacheDays now cache dataRoot net).fetched
      = geeStale cache now cacheDays := by
  unfold download_gee_metadata
  by_cases hs : geeStale cache now cacheDays = true
  · rw [if_pos hs, hs]
    cases net with
    | error e => rfl
    | ok response =>
      cases h2 : (response.status == 200) with
      | true =>
        simp only [h2, if_true]
        cases hj : response.jsonBody with
        | error e => rfl
        | ok r => rfl
      | false => simp [h2]
  · have hs2 : geeStale cache now cacheDays = false := by simpa using hs
    rw [if_neg hs, hs2]

/-- C4: `download_gee_metadata` performs a network fetch if and only if
the cache file is absent or (now − modification time) exceeds the TTL;
and when a fetch happens with an HTTP 200 response whose body parses,
the cache file content after the call is exactly the parsed body
pretty-printed (`indent=4`), with the write timestamped now. -/
theorem c4_fetch_iff_stale_and_pretty_write (cacheDays : Nat) (now : Int)
    (cache : Option (String × Int)) (dataRoot : FsPath)
    (net : Except String GeeResponse) :
    ((download_gee_metadata cacheDays now cache dataRoot net).fetched = true
      ↔ cache = none
        ∨ ∃ content mtime, cache = some (content, mtime)
            ∧ now - mtime > (cacheDays : Int) * 86400)
    ∧ (∀ response j, net = Except.ok response → response.status = 200 →
        response.jsonBody = Except.ok j →
        (download_gee_metadata cacheDays now cache dataRoot net).fetched = true →
        (download_gee_metadata cacheDays now cache dataRoot net).cache
          = some (dumpJson j, now)) := by
  constructor
  · rw [gee_fetched]
    unfold geeStale
    cases cache with
    | none => simp
    | some c =>
      obtain ⟨content, mtime⟩ := c
      simp only [Option.some.injEq, Prod.mk.injEq, decide_eq_true_eq]
      constructor
      · intro h
        exact Or.inr ⟨content, mtime, ⟨rfl, rfl⟩, h⟩
      · intro h
        rcases h with h | ⟨c2, m2, ⟨rfl, rfl⟩, h⟩
        · exact absurd h (by simp)
        · exact h
  · intro response j hnet h200 hjson hf
    rw [gee_fetched] at hf
    unfold download_gee_metadata
    rw [if_pos hf, hnet]
    have h2 : (response.status == 200) = true := by simp [h200]
    simp only [h2, if_true, hjson]

/-- The parsed catalog document used by the C4 witness. -/
def c4json : JsonDoc := { kvs := [("a", JPrim.jnum 1), ("b", JPrim.jstr "x")] }

/-- Witness for C4: absent cache file, 200 response with a two-key JSON
object — the cache after the call is its pretty-printed serialization. -/
theorem c4_fetch_iff_stale_and_pretty_write_witness :
    (download_gee_metadata 1 200000 none []
        (Except.ok { status := 200, jsonBody := Except.ok c4json })).cache
      = some (dumpJson c4json, 200000) := by
  have h := c4_fetch_iff_stale_and_pretty_write 1 200000 none []
    (Except.ok { status := 200, jsonBody := Except.ok c4json })
  exact h.2 { status := 200, jsonBody := Except.ok c4json } c4json rfl rfl rfl
    (h.1.mpr (Or.inl rfl))

/-- C6: every network or parse exception raised during a catalog refresh
in `download_gee_metadata` is caught and reported (the model is a total
function: the Python `try/except` swallows every exception, so none
propagates), and on any failure — raised network exception, non-200
status, or parse exception — any existing cache file is left unchanged. -/
theorem c6_failures_caught_cache_untouched (cacheDays : Nat) (now : Int)
    (cache : Option (String × Int)) (dataRoot : FsPath)
    (net : Except String GeeResponse) :
    (∀ e, net = Except.error e →
      (download_gee_metadata cacheDays now cache dataRoot net).cache = cache
      ∧ ((download_gee_metadata cacheDays now cache dataRoot net).fetched = true →
          (download_gee_metadata cacheDays now cache dataRoot net).messages = [e]))
    ∧ (∀ response, net = Except.ok response → response.status ≠ 200 →
        (download_gee_metadata cacheDays now cache dataRoot net).cache = cache)
    ∧ (∀ response e, net = Except.ok response →
        response.jsonBody = Except.error e →
        (download_gee_metadata cacheDays now cache dataRoot net).cache = cache
        ∧ (response.status = 200 →
            (download_gee_metadata cacheDays now cache dataRoot net).fetched = true →
            (download_gee_metadata cacheDays now cache dataRoot net).messages = [e])) := by
  refine ⟨?_, ?_, ?_⟩
  · intro e hnet
    subst hnet
    unfold download_gee_metadata
    by_cases hs : geeStale cache now cacheDays = true
    · rw [if_pos hs]
      exact ⟨rfl, fun _ => rfl⟩
    · rw [if_neg hs]
      exact ⟨rfl, fun h => by simp at h⟩
  · intro response hnet hst
    subst hnet
    unfold download_gee_metadata
    by_cases hs : geeStale cache now cacheDays = true
    · rw [if_pos hs]
      have h2 : (response.status == 200) = false := by simp [hst]
      simp [h2]
    · rw [if_neg hs]
  · intro response e hnet hjson
    subst hnet
    unfold download_gee_metadata
    by_cases hs : geeStale cache now cacheDays = true
    · rw [if_pos hs]
      cases h2 : (response.status == 200) with
      | true =>
        simp only [h2, if_true, hjson]
        exact ⟨trivial, fun _ _ => trivial⟩
      | false =>
        simp only [h2]
        exact ⟨rfl, fun hst => absurd (by simp [hst] : (response.status == 200) = true)
          (by simp [h2])⟩
    · rw [if_neg hs]
      exact ⟨rfl, fun _ h => by simp at h⟩

/-- Witness for C6: a raised network exception against an existing cache
file is reported and the cache is unchanged. -/
theorem c6_failures_caught_cache_untouched_witness :
    (download_gee_metadata 1 200000 (some ("old", 0)) []
        (Except.error "ConnectionError")).cache = some ("old", 0)
    ∧ (download_gee_metadata 1 200000 (some ("old", 0)) []
        (Except.error "ConnectionError")).messages = ["ConnectionError"] := by
  have h := (c6_failures_caught_cache_untouched 1 200000 (some ("old", 0)) []
    (Except.error "ConnectionError")).1 "ConnectionError" rfl
  exact ⟨h.1, h.2 (by decide)⟩

/-- C8: `create_datapaths` resolves the data root with precedence
explicit override, else `RABPRO_DATA`, else the platform default
(`specResolvedDataRoot`, written from the spec wording), and the returned
table is exactly that root joined with each fixed relative subpath of
`_PATH_CONSTANTS` (plus `gee_metadata`), with only the
`user_gee_metadata` entry depending on the filesystem: quantifying over
`userFileExists` makes the fixed-key entries a pure function of the
overrides and platform defaults. -/
theorem c8_resolution_precedence_and_fixed_table
    (datapath configpath : Option FsPath) (env : EnvVars)
    (platformData platformConfig : FsPath) (userFileExists : FsPath → Bool) :
    (create_datapaths datapath configpath env platformData platformConfig
        userFileExists).newDataRoot = specResolvedDataRoot datapath env platformData
    ∧ (create_datapaths datapath configpath env platformData platformConfig
        userFileExists).table
      = PATH_CONSTANTS.map (fun kv =>
          (kv.1, some (specResolvedDataRoot datapath env platformData ++ kv.2)))
        ++ [("gee_metadata",
              some (specResolvedDataRoot datapath env platformData
                ++ ["gee_datasets.json"])),
            ("user_gee_metadata",
              if userFileExists ((configpath.getD (env.rabproConfig.getD platformConfig))
                  ++ ["user_gee_datasets.json"])
              then some ((configpath.getD (env.rabproConfig.getD platformConfig))
                  ++ ["user_gee_datasets.json"])
              else none)] := by
  obtain ⟨envData, envConfig⟩ := env
  cases datapath <;> cases configpath <;> cases envData <;> cases envConfig <;>
    exact ⟨rfl, rfl⟩

/-- C10: `create_datapaths` performs no filesystem modification: its
operation trace is exactly one existence test of the user catalog file
under the resolved config root, and every traced operation is read-only;
its only other effects are the returned table and the replacement of the
process-wide data root (`newDataRoot`). -/
theorem c10_no_filesystem_modification
    (datapath configpath : Option FsPath) (env : EnvVars)
    (platformData platformConfig : FsPath) (userFileExists : FsPath → Bool) :
    (create_datapaths datapath configpath env platformData platformConfig
        userFileExists).ops
      = [FsOp.isFileCheck ((configpath.getD (env.rabproConfig.getD platformConfig))
          ++ ["user_gee_datasets.json"])]
    ∧ ((create_datapaths datapath configpath env platformData platformConfig
        userFileExists).ops.all readOnlyOp) = true := by
  obtain ⟨envData, envConfig⟩ := env
  cases datapath <;> cases configpath <;> cases envData <;> cases envConfig <;>
    exact ⟨rfl, rfl⟩
